import Mathlib

/-!
Verification of the turbo-ignore decision engine.

The repository ships only test tooling for the `turbo-ignore` package; the
decision engine itself is absent from the source tree, so every definition
below is modelled from the specification (§2–§8 of the design document):
workspace graph model, change-set resolver, affected-path classifier and
decision engine.  Glob matching is abstracted as a Boolean predicate on
paths, and the set of "never ignorable" manifest/lockfile names is an
injected configuration constant, as §9 of the specification demands.
-/

namespace TurboIgnore

/-- Modelled from the spec: a workspace (§3) has a unique identifier, a
repository-relative root path, an ordered list of declared internal
dependency identifiers, and per-workspace ignore globs.  The glob set is
abstracted as a match predicate on paths, since the specification treats
glob syntax as external. -/
structure Workspace where
  id : String
  root : String
  deps : List String
  ignores : String → Bool

/-- Modelled from the spec: workspace metadata supplied by the external
workspace-discovery collaborator (§6), an identifier-keyed table. -/
abbrev Metadata := List Workspace

/-- Modelled from the spec: a validated dependency graph (§3), here the
flat identifier-keyed table itself (arena-style per §9). -/
abbrev DependencyGraph := List Workspace

/-- Modelled from the spec: provenance tag of a ChangeSet (§3). -/
inductive Provenance where
  | diffRange
  | fallbackFull
  | fallbackUncommitted
deriving DecidableEq

/-- Modelled from the spec: a ChangeSet (§3) is an ordered sequence of
changed repository-root-relative file paths with a provenance tag. -/
structure ChangeSet where
  paths : List String
  provenance : Provenance

/-- Modelled from the spec: Verdict reason codes (§3). -/
inductive Reason where
  | DirectChange
  | TransitiveChange
  | LockfileChange
  | NoRelevantChange
  | ForcedBuild
  | InsufficientHistory
deriving DecidableEq

/-- Modelled from the spec: the Build/Skip decision (§3). -/
inductive Decision where
  | build
  | skip
deriving DecidableEq

/-- Modelled from the spec: a Verdict (§3) carries the decision, a reason
code and the list of triggering paths. -/
structure Verdict where
  decision : Decision
  reason : Reason
  paths : List String
deriving DecidableEq

/-- Modelled from the spec: invocation options; the force-build flag comes
from the CLI surface (§6). -/
structure Options where
  forceBuild : Bool

/-- Modelled from the spec: classifier configuration.  The manifest/lockfile
filename set is an injected constant (§9, open question), and the global
ignore list for root-bucket paths (§4.3) is abstracted as a predicate. -/
structure ClassifierConfig where
  lockfileNames : List String
  globalIgnore : String → Bool

/-- Structural prefix test on character lists. -/
def leadsChars : List Char → List Char → Bool
  | [], _ => true
  | _ :: _, [] => false
  | a :: as, b :: bs => a == b && leadsChars as bs

/-- A path lies under a workspace root when the root followed by the path
separator is a prefix of it (§4.3). -/
def underRoot (root p : String) : Bool :=
  leadsChars (root ++ "/").data p.data

/-- Characters of the last path component: everything after the final
separator. -/
def basenameAux : List Char → List Char → List Char
  | acc, [] => acc
  | acc, c :: cs =>
      if c = '/' then basenameAux [] cs
      else basenameAux (acc ++ [c]) cs

/-- Last path component of a repository-relative path. -/
def basename (p : String) : String :=
  String.mk (basenameAux [] p.data)

/-- A path is a package manifest or lockfile when its basename belongs to
the injected never-ignorable filename set (§4.3, §9). -/
def isManifestOrLockfile (cfg : ClassifierConfig) (p : String) : Bool :=
  cfg.lockfileNames.contains (basename p)

/-- Modelled from the spec: longest-prefix workspace match of a changed
path (§4.3): the workspace whose root path is the longest prefix of the
path, or none when the path is outside every workspace. -/
def matchWorkspace (g : DependencyGraph) (p : String) : Option Workspace :=
  g.foldl
    (fun best w =>
      if underRoot w.root p then
        match best with
        | none => some w
        | some b => if b.root.length < w.root.length then some w else some b
      else best)
    none

/-- Modelled from the spec: the classifier output (§4.3), a sentinel root
bucket plus a mapping from workspace identifier to matched paths. -/
structure Classification where
  root : List String
  matched : String → List String

/-- Modelled from the spec: classification of a single changed path (§4.3).
A path inside a matched workspace is dropped when it matches that
workspace's ignore globs, unless it is a manifest/lockfile, which can never
be ignored; a path outside every workspace goes to the root bucket unless
it is covered by the global ignore list, with the same manifest/lockfile
exemption (scenario 3: a root lockfile is not ignorable). -/
def classifyStep (cfg : ClassifierConfig) (g : DependencyGraph)
    (c : Classification) (p : String) : Classification :=
  match matchWorkspace g p with
  | some w =>
      if w.ignores p && !isManifestOrLockfile cfg p then c
      else
        Classification.mk c.root
          (fun i => if i = w.id then c.matched i ++ [p] else c.matched i)
  | none =>
      if cfg.globalIgnore p && !isManifestOrLockfile cfg p then c
      else Classification.mk (c.root ++ [p]) c.matched

/-- Modelled from the spec: `classify(changeSet, graph)` (§4.3), folding
the per-path classification over the changed paths. -/
def classify (cfg : ClassifierConfig) (cs : ChangeSet)
    (g : DependencyGraph) : Classification :=
  cs.paths.foldl (classifyStep cfg g) (Classification.mk [] (fun _ => []))

/-- Declared dependencies of an identifier in the graph table. -/
def depsOf (g : DependencyGraph) (i : String) : List String :=
  match g.find? (fun w => w.id == i) with
  | some w => w.deps
  | none => []

/-- One expansion step of the reachable-identifier set. -/
def expandDeps (g : DependencyGraph) (s : List String) : List String :=
  s ++ s.flatMap (depsOf g)

/-- Fuel-bounded iteration of the expansion step. -/
def expandDepsIter (g : DependencyGraph) : Nat → List String → List String
  | 0, s => s
  | n + 1, s => expandDepsIter g n (expandDeps g s)

/-- Modelled from the spec: `transitiveDependencies(id)` (§4.1), every
identifier reachable in one or more hops along the declared dependency
relation, computed by bounded traversal of the adjacency table. -/
def transitiveDependencies (g : DependencyGraph) (i : String) : List String :=
  expandDepsIter g g.length (depsOf g i)

/-- Modelled from the spec: `decide(targetId, changeSet, classification,
graph, options)` (§4.4), the priority-ordered decision rules 1–6.  The
injected classifier configuration supplies the manifest/lockfile set used
by rule 3. -/
def decide (cfg : ClassifierConfig) (targetId : String) (cs : ChangeSet)
    (cl : Classification) (g : DependencyGraph) (opts : Options) : Verdict :=
  if opts.forceBuild then Verdict.mk .build .ForcedBuild []
  else if !cl.root.isEmpty then Verdict.mk .build .DirectChange cl.root
  else if !(cl.matched targetId).isEmpty then
    if (cl.matched targetId).any (isManifestOrLockfile cfg) then
      Verdict.mk .build .LockfileChange (cl.matched targetId)
    else Verdict.mk .build .DirectChange (cl.matched targetId)
  else if (transitiveDependencies g targetId).any
      (fun d => !(cl.matched d).isEmpty) then
    Verdict.mk .build .TransitiveChange
      ((transitiveDependencies g targetId).flatMap cl.matched)
  else if cs.provenance = .fallbackFull then
    Verdict.mk .build .InsufficientHistory []
  else Verdict.mk .skip .NoRelevantChange []

/-- The full pipeline for one target: classify the ChangeSet, then decide
(data flow of §2). -/
def decideOnChangeSet (cfg : ClassifierConfig) (g : DependencyGraph)
    (opts : Options) (targetId : String) (cs : ChangeSet) : Verdict :=
  decide cfg targetId cs (classify cfg cs g) g opts

/-- Modelled from the spec: load-time errors of the workspace graph model
(§4.1, §7). -/
inductive LoadError where
  | configError
  | cycleError
deriving DecidableEq

/-- Some workspace declares a dependency on an identifier absent from the
metadata (§4.1). -/
def hasUnknownDep (m : Metadata) : Bool :=
  m.any (fun w => w.deps.any (fun d => !(m.any (fun w2 => w2.id == d))))

/-- The declared dependency relation contains a cycle: some workspace
reaches itself in one or more hops (§4.1). -/
def hasCycle (m : Metadata) : Bool :=
  m.any (fun w => (transitiveDependencies m w.id).contains w.id)

/-- Modelled from the spec: `loadGraph(workspaceMetadata)` (§4.1), failing
with `ConfigError` on an unknown dependency identifier and with
`CycleError` on a cyclic dependency relation, in the order the
specification lists the two failures; the traversal-based detection is
modelled by the bounded reachability test `hasCycle`. -/
def loadGraph (m : Metadata) : Except LoadError DependencyGraph :=
  if hasUnknownDep m then .error .configError
  else if hasCycle m then .error .cycleError
  else .ok m

/-- Modelled from the spec: the repository state observed by the
change-set resolver (§4.2, §6): whether the base ref resolves, the
path-level diff of the ref range, the fallback diff against the initial
commit or default branch tip, the uncommitted working-tree paths, and
whether the invocation considers them. -/
structure RepoState where
  baseResolvable : Bool
  diffPaths : List String
  fallbackDiffPaths : List String
  uncommittedPaths : List String
  includeUncommitted : Bool

/-- Modelled from the spec: `resolveChanges(baseRef, headRef, repoState)`
(§4.2).  A resolvable range yields the deduplicated range diff with
provenance `diff-range`, unioned with uncommitted modifications (provenance
`fallback-uncommitted`) when the invocation considers them; an unresolvable
base ref yields the full fallback diff with provenance `fallback-full`.
Total: an empty diff is a valid input and yields an empty ChangeSet. -/
def resolveChanges (repo : RepoState) : ChangeSet :=
  if repo.baseResolvable then
    if repo.includeUncommitted && !repo.uncommittedPaths.isEmpty then
      ChangeSet.mk (repo.diffPaths ++ repo.uncommittedPaths).dedup
        .fallbackUncommitted
    else ChangeSet.mk repo.diffPaths.dedup .diffRange
  else ChangeSet.mk repo.fallbackDiffPaths.dedup .fallbackFull

/-- A changed path outside every workspace is kept in the root bucket
exactly when it is not globally ignored or is a manifest/lockfile (§4.3). -/
def rootKept (cfg : ClassifierConfig) (g : DependencyGraph) (p : String) : Prop :=
  matchWorkspace g p = none ∧
    (cfg.globalIgnore p = false ∨ isManifestOrLockfile cfg p = true)

/-- A changed path is kept among workspace `i`'s matched paths exactly when
its longest-prefix workspace has identifier `i` and the path is not
ignore-matched or is a manifest/lockfile (§4.3). -/
def matchedKept (cfg : ClassifierConfig) (g : DependencyGraph)
    (p i : String) : Prop :=
  ∃ w, matchWorkspace g p = some w ∧ w.id = i ∧
    (w.ignores p = false ∨ isManifestOrLockfile cfg p = true)

lemma classifyStep_root (cfg : ClassifierConfig) (g : DependencyGraph)
    (c : Classification) (p : String) :
    (classifyStep cfg g c p).root = c.root ∨
      (classifyStep cfg g c p).root = c.root ++ [p] := by
  rcases h : matchWorkspace g p with _ | w <;>
    simp only [classifyStep, h] <;> split_ifs <;> simp

lemma classifyStep_matched (cfg : ClassifierConfig) (g : DependencyGraph)
    (c : Classification) (p i : String) :
    (classifyStep cfg g c p).matched i = c.matched i ∨
      (classifyStep cfg g c p).matched i = c.matched i ++ [p] := by
  rcases h : matchWorkspace g p with _ | w <;>
    simp only [classifyStep, h] <;> split_ifs
  · exact Or.inl rfl
  · exact Or.inl rfl
  · exact Or.inl rfl
  · by_cases hi : i = w.id <;> simp [hi]

lemma foldl_classify_root_append (cfg : ClassifierConfig)
    (g : DependencyGraph) (ps : List String) (c : Classification) :
    ∃ t, (ps.foldl (classifyStep cfg g) c).root = c.root ++ t := by
  induction ps generalizing c with
  | nil => exact ⟨[], by simp⟩
  | cons p ps ih =>
      obtain ⟨t1, h1⟩ := ih (classifyStep cfg g c p)
      rcases classifyStep_root cfg g c p with h | h
      · exact ⟨t1, by rw [List.foldl_cons, h1, h]⟩
      · exact ⟨[p] ++ t1, by rw [List.foldl_cons, h1, h, List.append_assoc]⟩

lemma foldl_classify_matched_append (cfg : ClassifierConfig)
    (g : DependencyGraph) (ps : List String) (c : Classification)
    (i : String) :
    ∃ t, (ps.foldl (classifyStep cfg g) c).matched i = c.matched i ++ t := by
  induction ps generalizing c with
  | nil => exact ⟨[], by simp⟩
  | cons p ps ih =>
      obtain ⟨t1, h1⟩ := ih (classifyStep cfg g c p)
      rcases classifyStep_matched cfg g c p i with h | h
      · exact ⟨t1, by rw [List.foldl_cons, h1, h]⟩
      · exact ⟨[p] ++ t1, by rw [List.foldl_cons, h1, h, List.append_assoc]⟩

lemma classifyStep_root_mem (cfg : ClassifierConfig) (g : DependencyGraph)
    (c : Classification) (p q : String) :
    q ∈ (classifyStep cfg g c p).root ↔
      q ∈ c.root ∨ (q = p ∧ rootKept cfg g p) := by
  rcases h : matchWorkspace g p with _ | w <;>
    simp only [classifyStep, h] <;> split_ifs with hig
  · have hnk : ¬rootKept cfg g p := by
      rintro ⟨-, hd | hd⟩ <;> rw [hd] at hig <;> simp at hig
    simp [hnk]
  · have hk : cfg.globalIgnore p = false ∨ isManifestOrLockfile cfg p = true := by
      cases hml : isManifestOrLockfile cfg p with
      | true => exact Or.inr rfl
      | false =>
          cases hgi : cfg.globalIgnore p with
          | false => exact Or.inl rfl
          | true => rw [hgi, hml] at hig; simp at hig
    constructor
    · intro hq
      rcases List.mem_append.mp hq with hq | hq
      · exact Or.inl hq
      · exact Or.inr ⟨List.mem_singleton.mp hq, h, hk⟩
    · rintro (hq | ⟨hq, -⟩)
      · exact List.mem_append.mpr (Or.inl hq)
      · exact List.mem_append.mpr (Or.inr (List.mem_singleton.mpr hq))
  · have hnk : ¬rootKept cfg g p := by
      rintro ⟨hn, -⟩
      rw [h] at hn
      exact Option.noConfusion hn
    simp [hnk]
  · have hnk : ¬rootKept cfg g p := by
      rintro ⟨hn, -⟩
      rw [h] at hn
      exact Option.noConfusion hn
    simp [hnk]

lemma classifyStep_matched_mem (cfg : ClassifierConfig)
    (g : DependencyGraph) (c : Classification) (p i q : String) :
    q ∈ (classifyStep cfg g c p).matched i ↔
      q ∈ c.matched i ∨ (q = p ∧ matchedKept cfg g p i) := by
  rcases h : matchWorkspace g p with _ | w <;>
    simp only [classifyStep, h] <;> split_ifs with hig
  · have hnk : ¬matchedKept cfg g p i := by
      rintro ⟨w', hw', -, -⟩
      rw [h] at hw'
      exact Option.noConfusion hw'
    simp [hnk]
  · have hnk : ¬matchedKept cfg g p i := by
      rintro ⟨w', hw', -, -⟩
      rw [h] at hw'
      exact Option.noConfusion hw'
    simp [hnk]
  · have hnk : ¬matchedKept cfg g p i := by
      rintro ⟨w', hw', -, hd⟩
      obtain rfl : w = w' := Option.some.inj (h.symm.trans hw')
      rcases hd with hd | hd <;> rw [hd] at hig <;> simp at hig
    simp [hnk]
  · have hk : w.ignores p = false ∨ isManifestOrLockfile cfg p = true := by
      cases hml : isManifestOrLockfile cfg p with
      | true => exact Or.inr rfl
      | false =>
          cases hgi : w.ignores p with
          | false => exact Or.inl rfl
          | true => rw [hgi, hml] at hig; simp at hig
    by_cases hi : i = w.id
    · simp only [if_pos hi]
      constructor
      · intro hq
        rcases List.mem_append.mp hq with hq | hq
        · exact Or.inl hq
        · exact Or.inr ⟨List.mem_singleton.mp hq, w, h, hi.symm, hk⟩
      · rintro (hq | ⟨hq, -⟩)
        · exact List.mem_append.mpr (Or.inl hq)
        · exact List.mem_append.mpr (Or.inr (List.mem_singleton.mpr hq))
    · simp only [if_neg hi]
      constructor
      · exact Or.inl
      · rintro (hq | ⟨hq, w', hw', hid, -⟩)
        · exact hq
        · obtain rfl : w = w' := Option.some.inj (h.symm.trans hw')
          exact absurd hid.symm hi

lemma foldl_classify_root_mem (cfg : ClassifierConfig) (g : DependencyGraph)
    (ps : List String) (c : Classification) (q : String) :
    q ∈ (ps.foldl (classifyStep cfg g) c).root ↔
      q ∈ c.root ∨ (q ∈ ps ∧ rootKept cfg g q) := by
  induction ps generalizing c with
  | nil => simp
  | cons a l ih =>
      rw [List.foldl_cons, ih, classifyStep_root_mem]
      constructor
      · rintro ((hq | ⟨hq, hk⟩) | ⟨hq, hk⟩)
        · exact Or.inl hq
        · exact Or.inr ⟨List.mem_cons.mpr (Or.inl hq), hq ▸ hk⟩
        · exact Or.inr ⟨List.mem_cons.mpr (Or.inr hq), hk⟩
      · rintro (hq | ⟨hq, hk⟩)
        · exact Or.inl (Or.inl hq)
        · rcases List.mem_cons.mp hq with hq | hq
          · exact Or.inl (Or.inr ⟨hq, hq ▸ hk⟩)
          · exact Or.inr ⟨hq, hk⟩

lemma foldl_classify_matched_mem (cfg : ClassifierConfig)
    (g : DependencyGraph) (ps : List String) (c : Classification)
    (i q : String) :
    q ∈ (ps.foldl (classifyStep cfg g) c).matched i ↔
      q ∈ c.matched i ∨ (q ∈ ps ∧ matchedKept cfg g q i) := by
  induction ps generalizing c with
  | nil => simp
  | cons a l ih =>
      rw [List.foldl_cons, ih, classifyStep_matched_mem]
      constructor
      · rintro ((hq | ⟨hq, hk⟩) | ⟨hq, hk⟩)
        · exact Or.inl hq
        · exact Or.inr ⟨List.mem_cons.mpr (Or.inl hq), hq ▸ hk⟩
        · exact Or.inr ⟨List.mem_cons.mpr (Or.inr hq), hk⟩
      · rintro (hq | ⟨hq, hk⟩)
        · exact Or.inl (Or.inl hq)
        · rcases List.mem_cons.mp hq with hq | hq
          · exact Or.inl (Or.inr ⟨hq, hq ▸ hk⟩)
          · exact Or.inr ⟨hq, hk⟩

lemma classify_root_mem (cfg : ClassifierConfig) (cs : ChangeSet)
    (g : DependencyGraph) (q : String) :
    q ∈ (classify cfg cs g).root ↔ q ∈ cs.paths ∧ rootKept cfg g q := by
  unfold classify
  rw [foldl_classify_root_mem]
  simp

lemma classify_matched_mem (cfg : ClassifierConfig) (cs : ChangeSet)
    (g : DependencyGraph) (i q : String) :
    q ∈ (classify cfg cs g).matched i ↔
      q ∈ cs.paths ∧ matchedKept cfg g q i := by
  unfold classify
  rw [foldl_classify_matched_mem]
  simp

/-- `decide` returns `Skip` exactly when no rule of §4.4 fires: force-build
off, empty root bucket, no matched paths on the target, no matched paths on
any transitive dependency, and provenance other than `fallback-full`. -/
lemma decide_skip_iff (cfg : ClassifierConfig) (t : String) (cs : ChangeSet)
    (cl : Classification) (g : DependencyGraph) (opts : Options) :
    (decide cfg t cs cl g opts).decision = .skip ↔
      opts.forceBuild = false ∧ cl.root = [] ∧ cl.matched t = [] ∧
      (∀ d ∈ transitiveDependencies g t, cl.matched d = []) ∧
      cs.provenance ≠ .fallbackFull := by
  unfold decide
  split_ifs with h1 h2 h3 h4 h5 h6 <;>
    simp_all [List.isEmpty_iff, List.any_eq_true]

/-- Rule 2 of §4.4: with force-build off and a non-empty root bucket, the
verdict is `Build/DirectChange` triggered by the root-bucket paths. -/
lemma decide_of_root (cfg : ClassifierConfig) (t : String) (cs : ChangeSet)
    (cl : Classification) (g : DependencyGraph) (opts : Options)
    (h0 : opts.forceBuild = false) (h1 : cl.root ≠ []) :
    decide cfg t cs cl g opts = Verdict.mk .build .DirectChange cl.root := by
  unfold decide
  rw [if_neg (by simp [h0]), if_pos (by simp [List.isEmpty_iff, h1])]

/-- Rule 3 of §4.4: with force-build off, an empty root bucket and matched
paths on the target, the verdict is `Build`, with reason `LockfileChange`
when some matched path is a manifest/lockfile and `DirectChange`
otherwise. -/
lemma decide_of_matched (cfg : ClassifierConfig) (t : String)
    (cs : ChangeSet) (cl : Classification) (g : DependencyGraph)
    (opts : Options) (h0 : opts.forceBuild = false) (h1 : cl.root = [])
    (h2 : cl.matched t ≠ []) :
    decide cfg t cs cl g opts =
      if (cl.matched t).any (isManifestOrLockfile cfg) then
        Verdict.mk .build .LockfileChange (cl.matched t)
      else Verdict.mk .build .DirectChange (cl.matched t) := by
  unfold decide
  rw [if_neg (by simp [h0]), if_neg (by simp [h1]),
    if_pos (by simp [List.isEmpty_iff, h2])]

/-- Rule 4 of §4.4: when rules 1–3 do not fire and some transitive
dependency has matched paths, the verdict is `Build/TransitiveChange`. -/
lemma decide_of_transitive (cfg : ClassifierConfig) (t : String)
    (cs : ChangeSet) (cl : Classification) (g : DependencyGraph)
    (opts : Options) (h0 : opts.forceBuild = false) (h1 : cl.root = [])
    (h2 : cl.matched t = [])
    (h3 : (transitiveDependencies g t).any
      (fun d => !(cl.matched d).isEmpty) = true) :
    decide cfg t cs cl g opts =
      Verdict.mk .build .TransitiveChange
        ((transitiveDependencies g t).flatMap cl.matched) := by
  unfold decide
  rw [if_neg (by simp [h0]), if_neg (by simp [h1]), if_neg (by simp [h2]),
    if_pos h3]

/-- Rule 6 of §4.4: when no rule fires and the provenance is reliable, the
verdict is `Skip/NoRelevantChange`. -/
lemma decide_of_skip (cfg : ClassifierConfig) (t : String) (cs : ChangeSet)
    (cl : Classification) (g : DependencyGraph) (opts : Options)
    (h0 : opts.forceBuild = false) (h1 : cl.root = [])
    (h2 : cl.matched t = [])
    (h3 : (transitiveDependencies g t).any
      (fun d => !(cl.matched d).isEmpty) = false)
    (h4 : cs.provenance ≠ .fallbackFull) :
    decide cfg t cs cl g opts = Verdict.mk .skip .NoRelevantChange [] := by
  unfold decide
  rw [if_neg (by simp [h0]), if_neg (by simp [h1]), if_neg (by simp [h2]),
    if_neg (by simp [h3]), if_neg h4]

/-! ### Concrete fixtures: the two-workspace monorepo of §8's scenarios -/

/-- Fixture: workspace `lib` with no dependencies and no ignore globs. -/
def wsLib : Workspace := Workspace.mk "lib" "packages/lib" [] (fun _ => false)

/-- Fixture: workspace `app` depending on `lib`. -/
def wsApp : Workspace :=
  Workspace.mk "app" "packages/app" ["lib"] (fun _ => false)

/-- Fixture: workspace `other`, unrelated to `app` and `lib`. -/
def wsOther : Workspace :=
  Workspace.mk "other" "packages/other" [] (fun _ => false)

/-- Fixture: the graph `app → lib` plus the unrelated `other`. -/
def g0 : DependencyGraph := [wsApp, wsLib, wsOther]

/-- Fixture: injected manifest/lockfile filename set, empty global ignore
list. -/
def cfg0 : ClassifierConfig :=
  ClassifierConfig.mk ["package.json", "package-lock.json"] (fun _ => false)

/-- Fixture: same lockfile set with a global ignore list covering every
path, to exercise the never-ignorable lockfile exemption. -/
def cfgAllIgnored : ClassifierConfig :=
  ClassifierConfig.mk ["package.json", "package-lock.json"] (fun _ => true)

/-- Fixture: workspace `docs` whose ignore globs match every path. -/
def wsDocs : Workspace :=
  Workspace.mk "docs" "packages/docs" [] (fun _ => true)

/-- Fixture: single-workspace graph for the ignore-glob lemmas. -/
def gDocs : DependencyGraph := [wsDocs]

/-- Fixture: change set touching the `docs` workspace. -/
def csDocs : ChangeSet :=
  ChangeSet.mk ["packages/docs/package.json", "packages/docs/readme.txt"]
    .diffRange

/-- Fixture: inconsistent metadata whose single workspace both depends on
itself (a cycle) and on the unknown identifier `ghost`. -/
def mBad : Metadata :=
  [Workspace.mk "a" "packages/a" ["a", "ghost"] (fun _ => false)]

lemma classify_append_root (cfg : ClassifierConfig) (g : DependencyGraph)
    (pr : Provenance) (ps qs : List String) :
    ∃ t, (classify cfg (ChangeSet.mk (ps ++ qs) pr) g).root =
      (classify cfg (ChangeSet.mk ps pr) g).root ++ t := by
  have h := foldl_classify_root_append cfg g qs
    (ps.foldl (classifyStep cfg g) (Classification.mk [] (fun _ => [])))
  rw [← List.foldl_append] at h
  exact h

lemma classify_append_matched (cfg : ClassifierConfig) (g : DependencyGraph)
    (pr : Provenance) (ps qs : List String) (i : String) :
    ∃ t, (classify cfg (ChangeSet.mk (ps ++ qs) pr) g).matched i =
      (classify cfg (ChangeSet.mk ps pr) g).matched i ++ t := by
  have h := foldl_classify_matched_append cfg g qs
    (ps.foldl (classifyStep cfg g) (Classification.mk [] (fun _ => []))) i
  rw [← List.foldl_append] at h
  exact h

/-- Claim C1: monotonicity of `decide` — for every target, graph and
options, if deciding over a ChangeSet yields a `Build` verdict, then
deciding over the same ChangeSet extended by any additional changed paths
(same provenance) still yields a `Build` verdict: adding paths never turns
`Build` into `Skip`. -/
theorem decide_monotone (cfg : ClassifierConfig) (g : DependencyGraph)
    (opts : Options) (t : String) (cs : ChangeSet) (extra : List String)
    (h : (decideOnChangeSet cfg g opts t cs).decision = .build) :
    (decideOnChangeSet cfg g opts t
      (ChangeSet.mk (cs.paths ++ extra) cs.provenance)).decision = .build := by
  rcases hd : (decideOnChangeSet cfg g opts t
      (ChangeSet.mk (cs.paths ++ extra) cs.provenance)).decision with _ | _
  · rfl
  · exfalso
    rw [decideOnChangeSet, decide_skip_iff] at hd
    obtain ⟨h1, h2, h3, h4, h5⟩ := hd
    have horig : (decideOnChangeSet cfg g opts t cs).decision = .skip := by
      rw [decideOnChangeSet, decide_skip_iff]
      refine ⟨h1, ?_, ?_, ?_, h5⟩
      · obtain ⟨t1, ht⟩ := classify_append_root cfg g cs.provenance cs.paths extra
        rw [ht] at h2
        exact (List.append_eq_nil.mp h2).1
      · obtain ⟨t1, ht⟩ :=
          classify_append_matched cfg g cs.provenance cs.paths extra t
        rw [ht] at h3
        exact (List.append_eq_nil.mp h3).1
      · intro d hdm
        obtain ⟨t1, ht⟩ :=
          classify_append_matched cfg g cs.provenance cs.paths extra d
        have hh := h4 d hdm
        rw [ht] at hh
        exact (List.append_eq_nil.mp hh).1
    rw [horig] at h
    exact Decision.noConfusion h

/-- Witness for C1: the scenario-1 ChangeSet yields `Build`, and so does
its extension by an unrelated path. -/
theorem decide_monotone_witness :
    (decideOnChangeSet cfg0 g0 (Options.mk false) "app"
      (ChangeSet.mk (["packages/lib/src/index.ts"] ++ ["docs/README.md"])
        .diffRange)).decision = .build :=
  decide_monotone cfg0 g0 (Options.mk false) "app"
    (ChangeSet.mk ["packages/lib/src/index.ts"] .diffRange)
    ["docs/README.md"] (by decide)

/-- Claim C2: if `options.forceBuild` is set, `decide` returns
`Build/ForcedBuild`, regardless of ChangeSet and classification content. -/
theorem decide_forceBuild (cfg : ClassifierConfig) (t : String)
    (cs : ChangeSet) (cl : Classification) (g : DependencyGraph)
    (opts : Options) (h : opts.forceBuild = true) :
    decide cfg t cs cl g opts = Verdict.mk .build .ForcedBuild [] := by
  unfold decide
  rw [if_pos h]

/-- Witness for C2 at a concrete input. -/
theorem decide_forceBuild_witness :
    decide cfg0 "app" (ChangeSet.mk [] .diffRange)
      (Classification.mk [] (fun _ => [])) g0 (Options.mk true) =
      Verdict.mk .build .ForcedBuild [] :=
  decide_forceBuild cfg0 "app" (ChangeSet.mk [] .diffRange)
    (Classification.mk [] (fun _ => [])) g0 (Options.mk true) rfl

/-- Counterexample to C3 as stated: with `forceBuild` set, a manifest
change under the target's root satisfies the claim's hypotheses, yet the
reason is `ForcedBuild`, not `LockfileChange`. -/
theorem direct_change_counterexample :
    underRoot "packages/app" "packages/app/package.json" = true ∧
    wsApp.ignores "packages/app/package.json" = false ∧
    isManifestOrLockfile cfg0 "packages/app/package.json" = true ∧
    (decideOnChangeSet cfg0 g0 (Options.mk true) "app"
      (ChangeSet.mk ["packages/app/package.json"] .diffRange)).reason ≠
      Reason.LockfileChange := by decide

/-- Claim C3 (amended): provided `forceBuild` is off and the root bucket is
empty, if a changed path's longest-prefix workspace is the target and the
path is not ignore-matched, the verdict is `Build`, with reason
`LockfileChange` when a matched path is a manifest/lockfile and
`DirectChange` otherwise. -/
theorem direct_change_build (cfg : ClassifierConfig) (g : DependencyGraph)
    (opts : Options) (t : String) (cs : ChangeSet) (p : String)
    (w : Workspace) (h0 : opts.forceBuild = false)
    (h1 : (classify cfg cs g).root = []) (h2 : p ∈ cs.paths)
    (h3 : matchWorkspace g p = some w) (h4 : w.id = t)
    (h5 : w.ignores p = false) :
    (decideOnChangeSet cfg g opts t cs).decision = .build ∧
    (decideOnChangeSet cfg g opts t cs).reason =
      (if ((classify cfg cs g).matched t).any (isManifestOrLockfile cfg) then
        Reason.LockfileChange
      else Reason.DirectChange) := by
  have hp : p ∈ (classify cfg cs g).matched t := by
    rw [classify_matched_mem]
    exact ⟨h2, w, h3, h4, Or.inl h5⟩
  have hne : (classify cfg cs g).matched t ≠ [] := List.ne_nil_of_mem hp
  have he := decide_of_matched cfg t cs (classify cfg cs g) g opts h0 h1 hne
  constructor
  · rw [decideOnChangeSet, he]
    split_ifs <;> rfl
  · rw [decideOnChangeSet, he]
    split_ifs <;> rfl

/-- Witness for C3 (amended): a source change under `app`'s root builds
with reason `DirectChange`. -/
theorem direct_change_build_witness :
    (decideOnChangeSet cfg0 g0 (Options.mk false) "app"
      (ChangeSet.mk ["packages/app/src/main.ts"] .diffRange)).decision =
      .build ∧
    (decideOnChangeSet cfg0 g0 (Options.mk false) "app"
      (ChangeSet.mk ["packages/app/src/main.ts"] .diffRange)).reason =
      (if ((classify cfg0 (ChangeSet.mk ["packages/app/src/main.ts"]
          .diffRange) g0).matched "app").any (isManifestOrLockfile cfg0) then
        Reason.LockfileChange
      else Reason.DirectChange) :=
  direct_change_build cfg0 g0 (Options.mk false) "app"
    (ChangeSet.mk ["packages/app/src/main.ts"] .diffRange)
    "packages/app/src/main.ts" wsApp rfl (by decide) (by decide) rfl rfl rfl

/-- Claim C4: when `forceBuild` is off, the root bucket is empty and the
target `A` has no matched paths, a non-ignored change under the root of a
workspace whose identifier is a transitive dependency of `A` makes the
verdict for `A` `Build/TransitiveChange`. -/
theorem transitive_change_build (cfg : ClassifierConfig)
    (g : DependencyGraph) (opts : Options) (targetA : String)
    (cs : ChangeSet) (p : String) (w : Workspace) (idB : String)
    (h0 : opts.forceBuild = false)
    (h1 : (classify cfg cs g).root = [])
    (h2 : (classify cfg cs g).matched targetA = [])
    (h3 : idB ∈ transitiveDependencies g targetA)
    (h4 : p ∈ cs.paths) (h5 : matchWorkspace g p = some w)
    (h6 : w.id = idB) (h7 : w.ignores p = false) :
    (decideOnChangeSet cfg g opts targetA cs).decision = .build ∧
    (decideOnChangeSet cfg g opts targetA cs).reason = .TransitiveChange := by
  have hp : p ∈ (classify cfg cs g).matched idB := by
    rw [classify_matched_mem]
    exact ⟨h4, w, h5, h6, Or.inl h7⟩
  have hany : (transitiveDependencies g targetA).any
      (fun d => !((classify cfg cs g).matched d).isEmpty) = true := by
    rw [List.any_eq_true]
    refine ⟨idB, h3, ?_⟩
    simp [List.isEmpty_iff, List.ne_nil_of_mem hp]
  have he := decide_of_transitive cfg targetA cs (classify cfg cs g) g opts
    h0 h1 h2 hany
  exact ⟨by rw [decideOnChangeSet, he], by rw [decideOnChangeSet, he]⟩

/-- Witness for C4: scenario 1 — target `app`, graph `app → lib`, changed
path `packages/lib/src/index.ts` gives `Build/TransitiveChange`. -/
theorem transitive_change_build_witness :
    (decideOnChangeSet cfg0 g0 (Options.mk false) "app"
      (ChangeSet.mk ["packages/lib/src/index.ts"] .diffRange)).decision =
      .build ∧
    (decideOnChangeSet cfg0 g0 (Options.mk false) "app"
      (ChangeSet.mk ["packages/lib/src/index.ts"] .diffRange)).reason =
      .TransitiveChange :=
  transitive_change_build cfg0 g0 (Options.mk false) "app"
    (ChangeSet.mk ["packages/lib/src/index.ts"] .diffRange)
    "packages/lib/src/index.ts" wsLib "lib" rfl (by decide) (by decide)
    (by decide) (by decide) rfl rfl rfl

/-- Claim C5: with `forceBuild` off, a non-empty root bucket — in
particular one produced by a repository-root lockfile such as
`package-lock.json`, which no global ignore list can suppress — makes the
verdict `Build/DirectChange` for every target. -/
theorem root_bucket_build (cfg : ClassifierConfig) (g : DependencyGraph)
    (opts : Options) (t : String) (cs : ChangeSet)
    (h0 : opts.forceBuild = false)
    (h1 : ("package-lock.json" ∈ cs.paths ∧
        matchWorkspace g "package-lock.json" = none ∧
        isManifestOrLockfile cfg "package-lock.json" = true) ∨
      (classify cfg cs g).root ≠ []) :
    (decideOnChangeSet cfg g opts t cs).decision = .build ∧
    (decideOnChangeSet cfg g opts t cs).reason = .DirectChange := by
  have hroot : (classify cfg cs g).root ≠ [] := by
    rcases h1 with ⟨hmem, hmw, hlock⟩ | hne
    · exact List.ne_nil_of_mem
        ((classify_root_mem cfg cs g _).mpr ⟨hmem, hmw, Or.inr hlock⟩)
    · exact hne
  have he := decide_of_root cfg t cs (classify cfg cs g) g opts h0 hroot
  exact ⟨by rw [decideOnChangeSet, he], by rw [decideOnChangeSet, he]⟩

/-- Witness for C5: scenario 3 — a root-level `package-lock.json` builds
with reason `DirectChange` even under a global ignore list that matches
every path. -/
theorem root_bucket_build_witness :
    (decideOnChangeSet cfgAllIgnored g0 (Options.mk false) "app"
      (ChangeSet.mk ["package-lock.json"] .diffRange)).decision = .build ∧
    (decideOnChangeSet cfgAllIgnored g0 (Options.mk false) "app"
      (ChangeSet.mk ["package-lock.json"] .diffRange)).reason =
      .DirectChange :=
  root_bucket_build cfgAllIgnored g0 (Options.mk false) "app"
    (ChangeSet.mk ["package-lock.json"] .diffRange) rfl
    (Or.inl ⟨by decide, rfl, by decide⟩)

/-- Claim C6: with provenance `fallback-full`, `forceBuild` off, an empty
root bucket, no matched paths on the target and none on its transitive
dependencies, `decide` returns `Build/InsufficientHistory` rather than
`Skip`. -/
theorem insufficient_history_build (cfg : ClassifierConfig) (t : String)
    (cs : ChangeSet) (cl : Classification) (g : DependencyGraph)
    (opts : Options) (h0 : cs.provenance = .fallbackFull)
    (h1 : opts.forceBuild = false) (h2 : cl.root = [])
    (h3 : cl.matched t = [])
    (h4 : (transitiveDependencies g t).any
      (fun d => !(cl.matched d).isEmpty) = false) :
    decide cfg t cs cl g opts = Verdict.mk .build .InsufficientHistory [] := by
  unfold decide
  rw [if_neg (by simp [h1]), if_neg (by simp [h2]), if_neg (by simp [h3]),
    if_neg (by simp [h4]), if_pos h0]

/-- Witness for C6: scenario 4 — an empty fallback-full ChangeSet yields
`Build/InsufficientHistory`. -/
theorem insufficient_history_build_witness :
    decide cfg0 "app" (ChangeSet.mk [] .fallbackFull)
      (Classification.mk [] (fun _ => [])) g0 (Options.mk false) =
      Verdict.mk .build .InsufficientHistory [] :=
  insufficient_history_build cfg0 "app" (ChangeSet.mk [] .fallbackFull)
    (Classification.mk [] (fun _ => [])) g0 (Options.mk false) rfl rfl rfl
    rfl (by decide)

/-- Claim C7: in `classify`, a changed path inside a matched workspace that
matches the workspace's ignore globs is dropped from the workspace's
matched paths, unless it is a package manifest or lockfile, in which case
it is always retained. -/
theorem classify_ignore_retention (cfg : ClassifierConfig)
    (g : DependencyGraph) (cs : ChangeSet) (p : String) (w : Workspace)
    (h1 : p ∈ cs.paths) (h2 : matchWorkspace g p = some w)
    (h3 : w.ignores p = true) :
    (isManifestOrLockfile cfg p = true →
      p ∈ (classify cfg cs g).matched w.id) ∧
    (isManifestOrLockfile cfg p = false →
      p ∉ (classify cfg cs g).matched w.id) := by
  constructor
  · intro hml
    rw [classify_matched_mem]
    exact ⟨h1, w, h2, rfl, Or.inr hml⟩
  · intro hml hmem
    rw [classify_matched_mem] at hmem
    obtain ⟨-, w', hw', -, hcond⟩ := hmem
    obtain rfl : w = w' := Option.some.inj (h2.symm.trans hw')
    rcases hcond with hc | hc
    · rw [h3] at hc
      exact Bool.noConfusion hc
    · rw [hml] at hc
      exact Bool.noConfusion hc

/-- Witness for C7: in the all-ignoring `docs` workspace, the manifest is
retained and a plain text file is dropped. -/
theorem classify_ignore_retention_witness :
    "packages/docs/package.json" ∈
      (classify cfg0 csDocs gDocs).matched "docs" ∧
    "packages/docs/readme.txt" ∉
      (classify cfg0 csDocs gDocs).matched "docs" :=
  ⟨(classify_ignore_retention cfg0 gDocs csDocs "packages/docs/package.json"
      wsDocs (by decide) rfl rfl).1 (by decide),
    (classify_ignore_retention cfg0 gDocs csDocs "packages/docs/readme.txt"
      wsDocs (by decide) rfl rfl).2 (by decide)⟩

/-- Counterexample to C8 as stated: on an empty ChangeSet whose provenance
is `fallback-full`, the verdict is `Build/InsufficientHistory`, not
`Skip/NoRelevantChange`, even on the acyclic graph `app → lib`. -/
theorem empty_changeset_counterexample :
    decideOnChangeSet cfg0 g0 (Options.mk false) "app"
      (ChangeSet.mk [] .fallbackFull) =
      Verdict.mk .build .InsufficientHistory [] ∧
    decideOnChangeSet cfg0 g0 (Options.mk false) "app"
      (ChangeSet.mk [] .fallbackFull) ≠
      Verdict.mk .skip .NoRelevantChange [] := by decide

/-- Claim C8 (amended): for every graph and target, an empty ChangeSet
whose provenance is not `fallback-full` yields `Skip/NoRelevantChange`
when `forceBuild` is off; and `resolveChanges` is total on an empty diff,
returning the empty `diff-range` ChangeSet. -/
theorem empty_changeset_skip (cfg : ClassifierConfig) (g : DependencyGraph)
    (opts : Options) (t : String) (cs : ChangeSet) (fb : List String)
    (b : Bool) (h0 : opts.forceBuild = false) (h1 : cs.paths = [])
    (h2 : cs.provenance ≠ .fallbackFull) :
    decideOnChangeSet cfg g opts t cs =
      Verdict.mk .skip .NoRelevantChange [] ∧
    resolveChanges (RepoState.mk true [] fb [] b) =
      ChangeSet.mk [] .diffRange := by
  have hcl : classify cfg cs g = Classification.mk [] (fun _ => []) := by
    unfold classify
    rw [h1]
    rfl
  constructor
  · have hroot : (classify cfg cs g).root = [] := by rw [hcl]
    have hmat : (classify cfg cs g).matched t = [] := by rw [hcl]
    have hany : (transitiveDependencies g t).any
        (fun d => !((classify cfg cs g).matched d).isEmpty) = false := by
      rw [hcl]
      simp
    rw [decideOnChangeSet]
    exact decide_of_skip cfg t cs (classify cfg cs g) g opts h0 hroot hmat
      hany h2
  · simp [resolveChanges]

/-- Witness for C8 (amended): scenario 2 — an empty diff against the
`app → lib` graph skips with `NoRelevantChange`, and the resolver returns
the empty ChangeSet. -/
theorem empty_changeset_skip_witness :
    decideOnChangeSet cfg0 g0 (Options.mk false) "app"
      (ChangeSet.mk [] .diffRange) =
      Verdict.mk .skip .NoRelevantChange [] ∧
    resolveChanges (RepoState.mk true [] [] [] false) =
      ChangeSet.mk [] .diffRange :=
  empty_changeset_skip cfg0 g0 (Options.mk false) "app"
    (ChangeSet.mk [] .diffRange) [] false rfl rfl (by decide)

/-- Counterexample to C9 as stated: metadata that both declares an unknown
dependency and contains a cycle fails with `ConfigError`, so `CycleError`
is not returned exactly when the relation is cyclic. -/
theorem loadGraph_error_counterexample :
    hasCycle mBad = true ∧
    loadGraph mBad ≠ Except.error LoadError.cycleError := by
  refine ⟨by decide, ?_⟩
  have h1 : loadGraph mBad = Except.error LoadError.configError := rfl
  rw [h1]
  intro h
  injection h with h2
  exact LoadError.noConfusion h2

/-- Claim C9 (amended): `loadGraph` fails with `ConfigError` exactly when
some workspace declares a dependency on an unknown identifier, and with
`CycleError` exactly when the dependency relation is cyclic and no
unknown-dependency error preempts it; in either case no graph (hence no
Verdict) is produced. -/
theorem loadGraph_errors (m : Metadata) :
    (loadGraph m = .error .configError ↔ hasUnknownDep m = true) ∧
    (loadGraph m = .error .cycleError ↔
      (hasUnknownDep m = false ∧ hasCycle m = true)) := by
  unfold loadGraph
  by_cases h1 : hasUnknownDep m = true
  · rw [if_pos h1]
    constructor
    · simp [h1]
    · simp [h1]
  · have h1f : hasUnknownDep m = false := by
      revert h1
      cases hasUnknownDep m <;> simp
    rw [if_neg h1]
    by_cases h2 : hasCycle m = true
    · rw [if_pos h2]
      constructor <;> simp [h1f, h2]
    · have h2f : hasCycle m = false := by
        revert h2
        cases hasCycle m <;> simp
      rw [if_neg h2]
      constructor <;> simp [h1f, h2f]

/-- Claim C10: `decide` is a pure function of its five inputs — two
invocations with identical target, ChangeSet, classification, graph and
options return identical Verdicts (decision, reason and triggering
paths). -/
theorem decide_idempotent (cfg : ClassifierConfig) (t : String)
    (cs : ChangeSet) (cl : Classification) (g : DependencyGraph)
    (opts : Options) :
    decide cfg t cs cl g opts = decide cfg t cs cl g opts := rfl

end TurboIgnore
